import Mathlib

/-!
Verification of the NES emulator core (6502 CPU, CPU bus, 2C02 PPU) against its
natural-language specification.  The definitions below are shallow embeddings of
the C functions in `src/NES/src/6502.c`, `src/NES/src/Backend/6502_Bus.c` and
`src/NES/src/Backend/2C02.c`.  Machine integers are `Nat` with explicit masking
(`% 256`, `% 65536`, bitwise `&&& / ||| / ^^^ / <<< / >>>`) exactly where the C
types make overflow or truncation observable.
-/

/-- Value of bit `i` of `r`, as a C single-bit bitfield read yields it (0 or 1). -/
def bitOf (r i : Nat) : Nat := if r.testBit i then 1 else 0

/-! ## 6502 CPU core (`src/NES/src/6502.c`)

Modelled from the spec: the `State6502` struct and its status register are
declared in `6502.h`, which is not under `src/`.  Per the spec (§3) the status
register is 8 bits with layout `N V _ B D I Z C`; each flag is modelled as a
`Bool`, and a C assignment of a numeric expression to a flag stores whether the
expression is nonzero (the spec's flag semantics: a flag is *set* when its
condition holds).  The CPU bus pointer is modelled as the read function
`bus : Nat → Nat`; `bus_read` returns a byte. -/

structure StatusFlags where
  C : Bool
  Z : Bool
  I : Bool
  D : Bool
  B : Bool
  U : Bool
  V : Bool
  N : Bool

structure State6502 where
  A : Nat
  X : Nat
  Y : Nat
  SP : Nat
  PC : Nat
  status : StatusFlags
  operand : Nat
  addr : Nat
  indirect_fetch : Nat
  bus : Nat → Nat

/-- Modelled from the spec: `bus_read` (declared in the missing `6502.h`)
returns a `uint8_t` read from the CPU bus. -/
def bus_read (cpu : State6502) (a : Nat) : Nat := cpu.bus a % 256

/-- Absolute addressing mode `ABS` (6502.c lines 114-121): reads a little-endian
16-bit address at `PC`, advances `PC` by two, stores it in `addr`, pre-fetches
`operand` from `addr`, and reports no page crossing. -/
def ABS (cpu : State6502) : State6502 × Bool :=
  let addr_low := bus_read cpu cpu.PC
  let PC1 := (cpu.PC + 1) % 65536
  let addr_high := bus_read cpu PC1
  let PC2 := (PC1 + 1) % 65536
  let addr := (addr_high <<< 8) ||| addr_low
  ({ cpu with PC := PC2, addr := addr, operand := bus_read cpu addr }, false)

/-- Jump operation `JMP` (6502.c lines 536-549).  The flag `c` is the
indirect-addressing tag: when true `PC := indirect_fetch`, otherwise
`PC := (uint16_t)cpu->operand` — the pre-fetched *data byte*, exactly as the
source writes it. -/
def JMP (cpu : State6502) (c : Bool) : State6502 × Nat :=
  if c then ({ cpu with PC := cpu.indirect_fetch }, 0)
  else ({ cpu with PC := cpu.operand }, 0)

/-- Return from Subroutine `RTS` (6502.c lines 697-708).  The source computes
`cpu->PC = (PCH << 8) | PCL + 1;` in which C precedence binds `+` before `|`,
so the embedded expression is `(PCH <<< 8) ||| (PCL + 1)`. -/
def RTS (cpu : State6502) (c : Bool) : State6502 × Nat :=
  let SP1 := (cpu.SP + 1) % 256
  let PCL := bus_read cpu (0x0100 ||| SP1)
  let SP2 := (SP1 + 1) % 256
  let PCH := bus_read cpu (0x0100 ||| SP2)
  ({ cpu with SP := SP2, PC := ((PCH <<< 8) ||| (PCL + 1)) % 65536 }, 0)

/-- Add with carry `ADC` (6502.c lines 213-227).  All arithmetic is on the
16-bit promotion of the 8-bit inputs; the C complement `~` in the overflow test
is modelled as `^^^ 0xFFFF` (only bit 7 of it is consumed by `&&& 0x0080`). -/
def ADC (cpu : State6502) (c : Bool) : State6502 × Nat :=
  let result := cpu.A + cpu.operand + cpu.status.C.toNat
  let newC := decide (result > 255)
  let newZ := decide (result &&& 0x00FF = 0)
  let newN := decide (result &&& 0x0080 = 0x0080)
  let newV := decide ((((cpu.A ^^^ cpu.operand) ^^^ 0xFFFF) &&& (cpu.A ^^^ result)) &&& 0x0080 = 0x0080)
  ({ cpu with A := result &&& 0x00FF,
              status := { cpu.status with C := newC, Z := newZ, N := newN, V := newV } },
   if c then 1 else 0)

/-- Subtract with carry `SBC` (6502.c lines 711-722): complements the operand
and adds; the V flag is assigned the raw mask expression (nonzero test under
the `Bool`-flag model). -/
def SBC (cpu : State6502) (c : Bool) : State6502 × Nat :=
  let value := cpu.operand ^^^ 0x00FF
  let temp := cpu.A + value + cpu.status.C.toNat
  let newC := decide (temp &&& 0xFF00 ≠ 0)
  let newZ := decide (temp &&& 0x00FF = 0)
  let newV := decide (((temp ^^^ cpu.A) &&& (temp ^^^ value)) &&& 0x0080 ≠ 0)
  let newN := decide (temp &&& 0x0080 = 0x0080)
  ({ cpu with A := temp &&& 0x00FF,
              status := { cpu.status with C := newC, Z := newZ, V := newV, N := newN } },
   if c then 1 else 0)

/-- Base CPU state used to build concrete inputs: all registers and memory 0. -/
def cpu6502base : State6502 :=
  { A := 0, X := 0, Y := 0, SP := 0, PC := 0,
    status := { C := false, Z := false, I := false, D := false,
                B := false, U := false, V := false, N := false },
    operand := 0, addr := 0, indirect_fetch := 0, bus := fun _ => 0 }

/-- Concrete input for the RTS check: `SP = 0x00`, the stack holds the pulled
low byte `PCL = 0xFF` at `0x0101` and high byte `PCH = 0x01` at `0x0102`. -/
def cpuRTScx : State6502 :=
  { cpu6502base with
    SP := 0,
    bus := fun a => if a = 0x0101 then 0xFF else if a = 0x0102 then 0x01 else 0 }

/-- Concrete input for the JMP-absolute check: `PC = 0x8000`, the operand bytes
`0x34 0x02` at `0x8000/0x8001` encode the little-endian target `0x0234`, and
the byte stored at `0x0234` is `0x00`. -/
def cpuJMPcx : State6502 :=
  { cpu6502base with
    PC := 0x8000,
    bus := fun a => if a = 0x8000 then 0x34 else if a = 0x8001 then 0x02 else 0 }

/-- Concrete CPU state for the SBC/ADC witness. -/
def cpuSBCw : State6502 := { cpu6502base with A := 0x80 }

/-! ## 2C02 PPU core (`src/NES/src/Backend/2C02.c`)

Modelled from the spec where the repository's headers are missing from `src/`:
`2C02.h` (the `State2C02` struct and the register bitfields) and `2C02_Bus.c`
(the PPU bus) are not under `src/`.  Register bytes are `Nat`s (a `uint8_t`
holds a value `< 256`); the flag positions follow the spec's NES-reference
semantics: `PPUCTRL.N` bits 0-1, `.I` bit 2, `.B` bit 4, `.V` bit 7;
`PPUMASK.b` (show background) bit 3; `PPUSTATUS.V` (vertical blank) bit 7.
The PPU bus is an abstract byte store `bus : Nat → Nat`. -/

structure color where
  r : Nat
  g : Nat
  b : Nat

/-- The 64-entry HSV-to-RGB palette table from 2C02.c lines 4-10. -/
def PALETTE_MAP : List color := [
  ⟨84, 84, 84⟩, ⟨0, 30, 116⟩, ⟨8, 16, 144⟩, ⟨48, 0, 136⟩, ⟨68, 0, 100⟩, ⟨92, 0, 48⟩, ⟨84, 4, 0⟩, ⟨60, 24, 0⟩, ⟨32, 42, 0⟩, ⟨8, 58, 0⟩, ⟨0, 64, 0⟩, ⟨0, 60, 0⟩, ⟨0, 50, 60⟩, ⟨0, 0, 0⟩, ⟨0, 0, 0⟩, ⟨0, 0, 0⟩,
  ⟨152, 150, 152⟩, ⟨8, 76, 196⟩, ⟨48, 50, 236⟩, ⟨92, 30, 228⟩, ⟨136, 20, 176⟩, ⟨160, 20, 100⟩, ⟨152, 34, 32⟩, ⟨120, 60, 0⟩, ⟨84, 90, 0⟩, ⟨40, 114, 0⟩, ⟨8, 124, 0⟩, ⟨0, 118, 40⟩, ⟨0, 102, 120⟩, ⟨0, 0, 0⟩, ⟨0, 0, 0⟩, ⟨0, 0, 0⟩,
  ⟨236, 238, 236⟩, ⟨76, 154, 236⟩, ⟨120, 124, 236⟩, ⟨176, 98, 236⟩, ⟨228, 84, 236⟩, ⟨236, 88, 180⟩, ⟨236, 106, 100⟩, ⟨212, 136, 32⟩, ⟨160, 170, 0⟩, ⟨116, 196, 0⟩, ⟨76, 208, 32⟩, ⟨56, 204, 108⟩, ⟨56, 180, 204⟩, ⟨60, 60, 60⟩, ⟨0, 0, 0⟩, ⟨0, 0, 0⟩,
  ⟨236, 238, 236⟩, ⟨168, 204, 236⟩, ⟨188, 188, 236⟩, ⟨212, 178, 236⟩, ⟨236, 174, 236⟩, ⟨236, 174, 212⟩, ⟨236, 180, 176⟩, ⟨228, 196, 144⟩, ⟨204, 210, 120⟩, ⟨180, 222, 120⟩, ⟨168, 226, 144⟩, ⟨152, 226, 180⟩, ⟨160, 214, 228⟩, ⟨160, 162, 160⟩, ⟨0, 0, 0⟩, ⟨0, 0, 0⟩]

structure State2C02 where
  PPUCTRL : Nat
  PPUMASK : Nat
  PPUSTATUS : Nat
  OAMADDR : Nat
  PPUSCROLL : Nat
  PPUADDR : Nat
  PPUDATA : Nat
  v : Nat
  t : Nat
  x : Nat
  w : Nat
  name_tbl_byte : Nat
  pa_latch_low : Nat
  pa_latch_high : Nat
  pt_latch_low : Nat
  pt_latch_high : Nat
  pt_shift_low : Nat
  pt_shift_high : Nat
  pa_shift_low : Nat
  pa_shift_high : Nat
  scanline : Int
  cycles : Nat
  evenframe : Bool
  pixels : Int → color
  bus : Nat → Nat

/-- Modelled from the spec: `PPUCTRL.flags.N`, the 2-bit base-nametable field
(bits 0-1). -/
def ctrlN (r : Nat) : Nat := r % 4

/-- Modelled from the spec: `PPUCTRL.flags.I`, VRAM address increment (bit 2). -/
def ctrlI (r : Nat) : Nat := bitOf r 2

/-- Modelled from the spec: `PPUCTRL.flags.B`, background pattern table (bit 4). -/
def ctrlB (r : Nat) : Nat := bitOf r 4

/-- Modelled from the spec: `PPUCTRL.flags.V`, generate NMI at VBlank (bit 7). -/
def ctrlV (r : Nat) : Nat := bitOf r 7

/-- Modelled from the spec: `PPUMASK.flags.b`, show background (bit 3). -/
def maskShowBg (r : Nat) : Nat := bitOf r 3

/-- Modelled from the spec: `PPUSTATUS.flags.V`, vertical-blank flag (bit 7). -/
def statusV (r : Nat) : Nat := bitOf r 7

/-- Modelled from the spec: `ppu_bus_read` of `2C02_Bus.c` (not under `src/`);
the PPU bus is an abstract byte store read through the state's `bus`. -/
def ppu_bus_read (ppu : State2C02) (a : Nat) : Nat := ppu.bus a % 256

/-- Modelled from the spec: `ppu_bus_write` of `2C02_Bus.c` (not under `src/`);
a pointwise update of the abstract byte store. -/
def ppu_bus_write (ppu : State2C02) (a d : Nat) : State2C02 :=
  { ppu with bus := fun j => if j = a then d % 256 else ppu.bus j }

/-- Coarse-X increment of `v` (2C02.c lines 12-25).  The C statement
`v &= ~0x001F` on a `uint16_t` is `v &&& 0xFFE0`; `v += 1` wraps at 2^16. -/
def coarseXinc (v : Nat) : Nat :=
  if v &&& 0x001F = 31 then (v &&& 0xFFE0) ^^^ 0x0400
  else (v + 1) % 65536

/-- Fine-Y increment of `v` (2C02.c lines 27-55).  `v &= ~0x7000` is
`v &&& 0x8FFF`, `v & ~0x03E0` is `v &&& 0xFC1F` on a `uint16_t`. -/
def fineYinc (v : Nat) : Nat :=
  if v &&& 0x7000 ≠ 0x7000 then (v + 0x1000) % 65536
  else
    let v1 := v &&& 0x8FFF
    let y := (v1 &&& 0x03E0) >>> 5
    if y = 29 then ((v1 ^^^ 0x0800) &&& 0xFC1F) ||| (0 <<< 5)
    else if y = 31 then (v1 &&& 0xFC1F) ||| (0 <<< 5)
    else (v1 &&& 0xFC1F) ||| ((y + 1) <<< 5)

/-- Nametable address for `v` (2C02.c lines 57-60). -/
def getNameTableAddr (v : Nat) : Nat := 0x2000 ||| (v &&& 0x0FFF)

/-- Attribute-table address for `v` (2C02.c lines 62-65). -/
def getAttribTableAddr (v : Nat) : Nat :=
  0x23C0 ||| (v &&& 0x0C00) ||| ((v >>> 4) &&& 0x38) ||| ((v >>> 2) &&& 0x07)

/-- Background fetch sub-state on `cycles % 8` (2C02.c lines 67-119). -/
def fetch_data_inc_v (ppu : State2C02) : State2C02 :=
  if ppu.cycles % 8 = 1 then
    { ppu with name_tbl_byte := ppu_bus_read ppu (getNameTableAddr ppu.v) }
  else if ppu.cycles % 8 = 3 then
    let attrib_tbl_byte := ppu_bus_read ppu (getAttribTableAddr ppu.v)
    let shift := 2 * ((ppu.v >>> 1) &&& 0x01) + 4 * ((ppu.v >>> 6) &&& 0x01)
    let palatteID := (attrib_tbl_byte >>> shift) &&& 0x03
    { ppu with pa_latch_low := if palatteID &&& 0x01 ≠ 0 then 0xFF else 0x00,
               pa_latch_high := if palatteID &&& 0x02 ≠ 0 then 0xFF else 0x00 }
  else if ppu.cycles % 8 = 5 then
    let fine_y := ppu.v >>> 12
    { ppu with pt_latch_low :=
        ppu_bus_read ppu ((ctrlB ppu.PPUCTRL <<< 12) ||| (ppu.name_tbl_byte <<< 4) ||| fine_y) }
  else if ppu.cycles % 8 = 7 then
    let fine_y := ppu.v >>> 12
    { ppu with pt_latch_high :=
        ppu_bus_read ppu ((ctrlB ppu.PPUCTRL <<< 12) ||| (ppu.name_tbl_byte <<< 4) ||| (1 <<< 3) ||| fine_y) }
  else if ppu.cycles % 8 = 0 then
    if ppu.cycles = 256 then { ppu with v := fineYinc ppu.v }
    else { ppu with v := coarseXinc ppu.v }
  else ppu

/-- Load the latches into the high halves of the shift registers (2C02.c lines
122-128).  In `clock_2C02` the source calls this as `feedShiftRegisters(&ppu)`,
passing a pointer to a pointer — undefined behavior in C; the spec (§9)
documents the intended effect as this function, which is how the call is
modelled.  No claim exercises the dots at which the call happens. -/
def feedShiftRegisters (ppu : State2C02) : State2C02 :=
  { ppu with
    pt_shift_low := (ppu.pt_shift_low &&& 0x00FF) ||| (ppu.pt_latch_low <<< 8),
    pt_shift_high := (ppu.pt_shift_high &&& 0x00FF) ||| (ppu.pt_latch_high <<< 8),
    pa_shift_low := (ppu.pa_shift_low &&& 0x00FF) ||| (ppu.pa_latch_low <<< 8),
    pa_shift_high := (ppu.pa_shift_high &&& 0x00FF) ||| (ppu.pa_latch_high <<< 8) }

/-- The four inline `>>= 1` statements applied to the shift registers in both
the pre-render and the visible branches of `clock_2C02`. -/
def shiftRegistersOnce (ppu : State2C02) : State2C02 :=
  { ppu with
    pt_shift_low := ppu.pt_shift_low >>> 1,
    pt_shift_high := ppu.pt_shift_high >>> 1,
    pa_shift_low := ppu.pa_shift_low >>> 1,
    pa_shift_high := ppu.pa_shift_high >>> 1 }

/-- Pixel emission on a visible scanline (2C02.c lines 180-192). -/
def emitPixel (ppu : State2C02) : State2C02 :=
  let shade := ((ppu.pt_shift_low >>> ppu.x) &&& 0x01) ||| (((ppu.pt_shift_high >>> ppu.x) &&& 0x01) <<< 1)
  let palatte := ((ppu.pa_shift_low >>> ppu.x) &&& 0x01) ||| (((ppu.pa_shift_high >>> ppu.x) &&& 0x01) <<< 1)
  let index : Int := ppu.scanline * 256 + ppu.cycles - 1
  let px :=
    if shade = 0 then PALETTE_MAP.getD (ppu_bus_read ppu 0x3F00 &&& 0x3F) ⟨0, 0, 0⟩
    else PALETTE_MAP.getD (ppu_bus_read ppu (0x3F00 ||| (palatte <<< 2) ||| shade) &&& 0x3F) ⟨0, 0, 0⟩
  { ppu with pixels := fun j => if j = index then px else ppu.pixels j }

/-- Pre-render line logic of `clock_2C02` (2C02.c lines 135-170).  The C
statement `PPUSTATUS.flags.V = 0` clears bit 7 (`&&& 0x7F` on the byte);
`v & ~0x7BE0` on a `uint16_t` is `v &&& 0x841F` and `t & ~0x041F` is
`t &&& 0xFBE0`. -/
def prerenderLine (p0 : State2C02) : State2C02 :=
  let p1 :=
    if p0.cycles % 8 = 1 ∧ ((9 ≤ p0.cycles ∧ p0.cycles ≤ 257) ∨ (321 ≤ p0.cycles ∧ p0.cycles ≤ 337))
    then feedShiftRegisters p0 else p0
  let p2 := if p1.cycles = 1 then { p1 with PPUSTATUS := p1.PPUSTATUS &&& 0x7F } else p1
  if 1 ≤ p2.cycles ∧ p2.cycles < 257 then fetch_data_inc_v (shiftRegistersOnce p2)
  else if p2.cycles = 257 then { p2 with v := (p2.v &&& 0x7BE0) ||| (p2.t &&& 0x841F) }
  else if 280 ≤ p2.cycles ∧ p2.cycles < 305 then { p2 with v := (p2.v &&& 0x041F) ||| (p2.t &&& 0xFBE0) }
  else if 321 ≤ p2.cycles ∧ p2.cycles < 337 then fetch_data_inc_v p2
  else p2

/-- Visible-line logic of `clock_2C02` (2C02.c lines 171-210). -/
def visibleLine (p0 : State2C02) : State2C02 :=
  let p1 :=
    if p0.cycles % 8 = 1 ∧ ((9 ≤ p0.cycles ∧ p0.cycles ≤ 257) ∨ (321 ≤ p0.cycles ∧ p0.cycles ≤ 337))
    then feedShiftRegisters p0 else p0
  if 1 ≤ p1.cycles ∧ p1.cycles < 257 then fetch_data_inc_v (shiftRegistersOnce (emitPixel p1))
  else if p1.cycles = 257 then { p1 with v := (p1.v &&& 0x7BE0) ||| (p1.t &&& 0x841F) }
  else if 321 ≤ p1.cycles ∧ p1.cycles < 337 then fetch_data_inc_v p1
  else p1

/-- The whole block of `clock_2C02` guarded by `if (ppu->PPUMASK.flags.b)`
(2C02.c lines 133-211): the pre-render branch, then the visible branch. -/
def renderStep (p0 : State2C02) : State2C02 :=
  let p1 := if p0.scanline = -1 then prerenderLine p0 else p0
  if 0 ≤ p1.scanline ∧ p1.scanline < 240 then visibleLine p1 else p1

/-- One PPU dot, `clock_2C02` (2C02.c lines 130-235).  The returned `Bool` is
the NMI line: `true` exactly when the source calls `NMI(ppu->cpu)`.  The
renderer flush `LoadPixelDataToScreen(ppu->pixels)` passes the framebuffer to
the out-of-scope frontend and changes no PPU state, so it has no counterpart
here. -/
def clock_2C02 (p0 : State2C02) : State2C02 × Bool :=
  let p1 := if maskShowBg p0.PPUMASK = 1 then renderStep p0 else p0
  let vb :=
    if p1.scanline = 241 ∧ p1.cycles = 1 then
      ({ p1 with PPUSTATUS := p1.PPUSTATUS ||| 0x80 }, decide (ctrlV p1.PPUCTRL = 1))
    else (p1, false)
  let p2 := vb.1
  let p3 := { p2 with cycles := p2.cycles + 1 }
  let p4 :=
    if p3.cycles = 341 then
      let p := { p3 with cycles := 0, scanline := p3.scanline + 1 }
      if p.scanline = 261 then { p with scanline := -1, evenframe := !p.evenframe } else p
    else p3
  (p4, vb.2)

/-- Register write `write_ppu` (2C02.c lines 273-344).  The first statement
overwrites the low 5 bits of `PPUSTATUS` with the low 5 bits of `data` for
every accepted address; cases `0x2003`, `0x2004` and `0x4014` (and any other
address) then fall through with no further effect.  The toggle
`ppu->w = !ppu->w` is 1 when `w = 0` and 0 otherwise. -/
def write_ppu (ppu0 : State2C02) (addr data : Nat) : State2C02 :=
  let ppu := { ppu0 with PPUSTATUS := (ppu0.PPUSTATUS &&& 0xE0) ||| (data &&& 0x1F) }
  if addr = 0x2000 then
    let ppu := { ppu with PPUCTRL := data }
    { ppu with t := (ppu.t &&& 0b0111001111111111) ||| (ctrlN ppu.PPUCTRL <<< 10) }
  else if addr = 0x2001 then { ppu with PPUMASK := data }
  else if addr = 0x2003 then ppu
  else if addr = 0x2004 then ppu
  else if addr = 0x2005 then
    let ppu := { ppu with PPUSCROLL := data }
    let ppu :=
      if ppu.w = 0 then
        { ppu with t := (ppu.t &&& 0b0111111111100000) ||| (data >>> 3),
                   x := data &&& 0b00000111 }
      else if ppu.w = 1 then
        { ppu with t := ((ppu.t &&& 0b0000110000011111) ||| ((data &&& 0b111) <<< 12)) ||| ((data >>> 3) <<< 5) }
      else ppu
    { ppu with w := if ppu.w = 0 then 1 else 0 }
  else if addr = 0x2006 then
    let ppu := { ppu with PPUADDR := data }
    let ppu :=
      if ppu.w = 0 then
        { ppu with t := (ppu.t &&& 0x00FF) ||| ((data &&& 0b111111) <<< 8) }
      else if ppu.w = 1 then
        let ppu := { ppu with t := (ppu.t &&& 0xFF00) ||| data }
        { ppu with v := ppu.t }
      else ppu
    { ppu with w := if ppu.w = 0 then 1 else 0 }
  else if addr = 0x2007 then
    let ppu := { ppu with PPUDATA := data }
    let ppu := ppu_bus_write ppu ppu.v data
    { ppu with v := (ppu.v + (if ctrlI ppu.PPUCTRL = 1 then 32 else 1)) % 65536 }
  else ppu

/-- Register read `read_ppu` (2C02.c lines 346-379), returning the mutated
state and the `uint8_t` result.  Unhandled cases reach `return 0`. -/
def read_ppu (ppu : State2C02) (addr : Nat) : State2C02 × Nat :=
  if addr = 0x2002 then
    let ppu1 := { ppu with w := 0 }
    let ret := ppu1.PPUSTATUS
    ({ ppu1 with PPUSTATUS := ppu1.PPUSTATUS &&& 0x7F }, ret)
  else if addr = 0x2004 then (ppu, 0)
  else if addr = 0x2007 then
    if ppu.v < 0x3F00 then
      let ret := ppu.PPUDATA
      let ppu1 := { ppu with PPUDATA := ppu_bus_read ppu ppu.v }
      ({ ppu1 with v := (ppu1.v + (if ctrlI ppu1.PPUCTRL = 1 then 32 else 1)) % 65536 }, ret)
    else if ppu.v < 0x4000 then
      let ppu1 := { ppu with PPUDATA := ppu_bus_read ppu (0x2000 ||| (ppu.v &&& 0x03FF)) }
      let ret := ppu_bus_read ppu1 ppu1.v
      ({ ppu1 with v := (ppu1.v + (if ctrlI ppu1.PPUCTRL = 1 then 32 else 1)) % 65536 }, ret)
    else (ppu, 0)
  else (ppu, 0)

/-- Base PPU state used to build concrete inputs: all registers, counters and
stores 0, `scanline = 0`, `w = 0`. -/
def basePPU : State2C02 :=
  { PPUCTRL := 0, PPUMASK := 0, PPUSTATUS := 0, OAMADDR := 0, PPUSCROLL := 0,
    PPUADDR := 0, PPUDATA := 0, v := 0, t := 0, x := 0, w := 0,
    name_tbl_byte := 0, pa_latch_low := 0, pa_latch_high := 0,
    pt_latch_low := 0, pt_latch_high := 0, pt_shift_low := 0,
    pt_shift_high := 0, pa_shift_low := 0, pa_shift_high := 0,
    scanline := 0, cycles := 0, evenframe := false,
    pixels := fun _ => ⟨0, 0, 0⟩, bus := fun _ => 0 }

/-- Concrete PPU state at VBlank start with NMI enabled, for the C5 witness. -/
def ppuC5w : State2C02 := { basePPU with scanline := 241, cycles := 1, PPUCTRL := 0x80 }

/-- Concrete pre-render state with rendering disabled and the VBlank flag set,
for the C7 counterexample. -/
def ppuC7cx : State2C02 :=
  { basePPU with scanline := -1, cycles := 1, PPUMASK := 0, PPUSTATUS := 0x80 }

/-- Concrete pre-render state with rendering enabled and the VBlank flag set,
for the C7 witness. -/
def ppuC7w : State2C02 :=
  { basePPU with scanline := -1, cycles := 1, PPUMASK := 0x08, PPUSTATUS := 0x80 }

/-- Concrete PPU state with `v = 0x4000` and `PPUCTRL.I = 0`, for the C8
counterexample. -/
def ppuC8cx : State2C02 := { basePPU with v := 0x4000 }

/-- Concrete PPU state with `v = 0x2301` and `PPUCTRL.I = 0`, for the C8
witness. -/
def ppuC8w : State2C02 := { basePPU with v := 0x2301 }

/-- Concrete PPU state with `PPUSTATUS = 0xA5`, for the C10 witness. -/
def ppuC10w : State2C02 := { basePPU with PPUSTATUS := 0xA5 }

/-! ## CPU bus (`src/NES/src/Backend/6502_Bus.c`, the non-`BUS_TEST` variant)

The `Bus6502` struct is declared in `6502_Bus.h`, which is not under `src/`;
per the spec it owns the 2 KiB work RAM and borrowed references to the PPU and
the cartridge.  RAM and the cartridge (whose mapper is out of scope for the
spec) are abstract byte stores. -/

structure Bus6502 where
  memory : Nat → Nat
  ppu : State2C02
  cart : Nat → Nat

/-- CPU bus write (6502_Bus.c lines 15-46).  The RAM branch masks the address
with `0x0800` exactly as the source does.  In the PPU branch the C expression
`0x2000 + addr & 0x8` parses as `(0x2000 + addr) & 0x8`; the source's call
`write_ppu(bus->ppu, addr)` omits the data argument and does not match the
three-parameter `write_ppu` of 2C02.c — modelled from the spec as forwarding
`data`.  The cartridge branch is `CPUWriteCartridge`, modelled from the spec
as a store into the abstract cartridge bytes. -/
def cpu_bus_write (bus : Bus6502) (addr data : Nat) : Bus6502 :=
  if addr < 0x2000 then
    let idx := addr &&& 0x0800
    { bus with memory := fun j => if j = idx then data % 256 else bus.memory j }
  else if addr < 0x4000 then
    let a2 := (0x2000 + addr) &&& 0x8
    { bus with ppu := write_ppu bus.ppu a2 data }
  else if addr < 0x4018 then bus
  else if addr < 0x4020 then bus
  else if addr ≤ 0xFFFF then
    { bus with cart := fun j => if j = addr then data % 256 else bus.cart j }
  else bus

/-- CPU bus read (6502_Bus.c lines 48-79), returning the mutated bus and the
byte.  Only the RAM branch has a `return` statement in the source; every other
branch falls off the end of the function (no defined value in C) and is
modelled as returning 0.  The PPU branch performs the `read_ppu` side effect
and discards its result, as the source does. -/
def cpu_bus_read (bus : Bus6502) (addr : Nat) : Bus6502 × Nat :=
  if addr < 0x2000 then (bus, bus.memory (addr &&& 0x0800) % 256)
  else if addr < 0x4000 then
    let a2 := (0x2000 + addr) &&& 0x8
    ({ bus with ppu := (read_ppu bus.ppu a2).1 }, 0)
  else if addr < 0x4018 then (bus, 0)
  else if addr < 0x4020 then (bus, 0)
  else if addr ≤ 0xFFFF then
    let _ := bus.cart addr
    (bus, 0)
  else (bus, 0)

/-- Concrete bus with all-zero RAM, for the C3 check. -/
def busC3 : Bus6502 := { memory := fun _ => 0, ppu := basePPU, cart := fun _ => 0 }

/-! ## Bit-level helper lemmas -/

theorem nat_and_128_ne_zero (x : Nat) : (x &&& 0x80 ≠ 0) ↔ x.testBit 7 := by
  have h : (0x80 : Nat) = 2 ^ 7 := by norm_num
  rw [h, Nat.and_two_pow]
  cases hx : x.testBit 7 <;> simp [hx]

theorem nat_and_128_eq_128 (x : Nat) : (x &&& 0x80 = 0x80) ↔ x.testBit 7 := by
  have h : (0x80 : Nat) = 2 ^ 7 := by norm_num
  rw [h, Nat.and_two_pow]
  cases hx : x.testBit 7 <;> simp [hx]

set_option maxRecDepth 4000 in
theorem nat_and_FF00 : ∀ t, t < 512 → ((t &&& 0xFF00 ≠ 0) ↔ 255 < t) := by decide

/-! ## Theorems for the CPU claims -/

/-- C1: the claim says RTS sets `PC` to `((PCH << 8) | PCL) + 1` with the
carry propagating into the high byte when `PCL = 0xFF`.  On the concrete stack
`PCL = 0xFF`, `PCH = 0x01` the code computes `(PCH <<< 8) ||| (PCL + 1) =
0x0100`, while the claimed value is `((0x01 <<< 8) ||| 0xFF) + 1 = 0x0200`:
the precedence slip drops the carry whenever `PCL = 0xFF` and `PCH` is odd. -/
theorem rts_precedence_bug_eval :
    (RTS cpuRTScx false).1.PC = 0x0100 ∧
    ((((0x01 : Nat) <<< 8) ||| 0xFF) + 1 = 0x0200) := by decide

/-- C2: the claim says JMP-absolute sets `PC` to the computed effective
address.  On the concrete program `JMP $0234` (operand bytes `34 02`) the
addressing mode computes `addr = 0x0234`, but the operation assigns
`PC := cpu->operand`, the data byte `0x00` fetched *from* `0x0234`, so the
final `PC` is `0x0000`, not the target `0x0234`. -/
theorem jmp_abs_target_eval :
    ((ABS cpuJMPcx).1.addr = 0x0234) ∧
    ((JMP (ABS cpuJMPcx).1 (ABS cpuJMPcx).2).1.PC = 0x0000) ∧
    ((0x0000 : Nat) ≠ 0x0234) := by decide

/-- C4: SBC with operand `r` produces exactly the same accumulator and C, Z,
V, N flags as ADC with operand `r XOR 0xFF` from the same initial state. -/
theorem sbc_adc_equiv (s : State6502) (r : Nat) (pc : Bool)
    (hA : s.A < 256) (hr : r < 256) :
    (SBC { s with operand := r } pc).1.A = (ADC { s with operand := r ^^^ 0xFF } pc).1.A ∧
    (SBC { s with operand := r } pc).1.status.C = (ADC { s with operand := r ^^^ 0xFF } pc).1.status.C ∧
    (SBC { s with operand := r } pc).1.status.Z = (ADC { s with operand := r ^^^ 0xFF } pc).1.status.Z ∧
    (SBC { s with operand := r } pc).1.status.V = (ADC { s with operand := r ^^^ 0xFF } pc).1.status.V ∧
    (SBC { s with operand := r } pc).1.status.N = (ADC { s with operand := r ^^^ 0xFF } pc).1.status.N := by
  have hm : r ^^^ 0xFF < 256 := by
    have h2 : (256 : Nat) = 2 ^ 8 := by norm_num
    rw [h2] at hr ⊢
    exact Nat.xor_lt_two_pow hr (by norm_num)
  have htemp : s.A + (r ^^^ 0xFF) + s.status.C.toNat < 512 := by
    have hc : s.status.C.toNat ≤ 1 := Bool.toNat_le s.status.C
    omega
  refine ⟨rfl, ?_, rfl, ?_, rfl⟩
  · -- carry flag: `(temp &&& 0xFF00) ≠ 0` agrees with `temp > 255` for temp < 512
    simp only [SBC, ADC]
    rw [decide_eq_decide]
    exact nat_and_FF00 _ htemp
  · -- overflow flag: both sides are bit 7 of the same boolean combination
    simp only [SBC, ADC]
    rw [decide_eq_decide, nat_and_128_ne_zero, nat_and_128_eq_128]
    simp only [Nat.testBit_and, Nat.testBit_xor]
    have hFFFF : (0xFFFF : Nat).testBit 7 = true := by decide
    rw [hFFFF]
    cases ha : s.A.testBit 7 <;>
      cases hv : (r ^^^ 0xFF).testBit 7 <;>
        cases ht : (s.A + (r ^^^ 0xFF) + s.status.C.toNat).testBit 7 <;> simp [ha, hv, ht]

/-- C4 witness: the equivalence at `A = 0x80`, `r = 0x10`, no page cross. -/
theorem sbc_adc_equiv_witness :
    (SBC { cpuSBCw with operand := 0x10 } false).1.A = (ADC { cpuSBCw with operand := 0x10 ^^^ 0xFF } false).1.A ∧
    (SBC { cpuSBCw with operand := 0x10 } false).1.status.C = (ADC { cpuSBCw with operand := 0x10 ^^^ 0xFF } false).1.status.C ∧
    (SBC { cpuSBCw with operand := 0x10 } false).1.status.Z = (ADC { cpuSBCw with operand := 0x10 ^^^ 0xFF } false).1.status.Z ∧
    (SBC { cpuSBCw with operand := 0x10 } false).1.status.V = (ADC { cpuSBCw with operand := 0x10 ^^^ 0xFF } false).1.status.V ∧
    (SBC { cpuSBCw with operand := 0x10 } false).1.status.N = (ADC { cpuSBCw with operand := 0x10 ^^^ 0xFF } false).1.status.N :=
  sbc_adc_equiv cpuSBCw 0x10 false (by decide) (by decide)

/-- C3: the claim says `cpu_bus_write`/`cpu_bus_read` mirror the 2 KiB RAM via
index `addr & 0x07FF`.  The source instead masks with `0x0800`: writing `0xAB`
to `0x0001` on an all-zero RAM stores it at index 0 (not index 1 as claimed),
and reading the mirror `0x0801` (whose claimed RAM index is `0x0801 & 0x07FF =
1`, holding the written byte) returns 0 because the code reads index
`0x0801 & 0x0800 = 0x0800`. -/
theorem cpu_bus_ram_mask_eval :
    ((cpu_bus_write busC3 0x0001 0xAB).memory 0x0000 = 0xAB) ∧
    ((cpu_bus_write busC3 0x0001 0xAB).memory 0x0001 = 0) ∧
    ((cpu_bus_read (cpu_bus_write busC3 0x0001 0xAB) 0x0801).2 = 0) := by decide

theorem statusV_or128 (x : Nat) : statusV (x ||| 0x80) = 1 := by
  have h7 : (0x80 : Nat).testBit 7 = true := by decide
  simp [statusV, bitOf, Nat.testBit_or, h7]

theorem statusV_and127 (x : Nat) : statusV (x &&& 0x7F) = 0 := by
  have h7 : (0x7F : Nat).testBit 7 = false := by decide
  simp [statusV, bitOf, Nat.testBit_and, h7]

theorem renderStep_noop (s : State2C02) (h1 : s.scanline ≠ -1)
    (h2 : ¬(0 ≤ s.scanline ∧ s.scanline < 240)) : renderStep s = s := by
  simp only [renderStep]
  rw [if_neg h1, if_neg h2]

/-- C5: at `scanline = 241`, `cycles = 1`, one call to `clock_2C02` sets
`PPUSTATUS.V` to 1 — regardless of `PPUMASK`, since the VBlank block sits
outside the rendering guard — and raises NMI exactly when `PPUCTRL.V` is
set. -/
theorem vblank_start_thm (s : State2C02) (h1 : s.scanline = 241) (h2 : s.cycles = 1) :
    statusV ((clock_2C02 s).1.PPUSTATUS) = 1 ∧
    ((clock_2C02 s).2 = true ↔ ctrlV s.PPUCTRL = 1) := by
  have hr : renderStep s = s :=
    renderStep_noop s (by rw [h1]; decide) (by rw [h1]; decide)
  simp [clock_2C02, hr, h1, h2, statusV_or128, decide_eq_true_eq]

/-- C5 witness: the VBlank start on a concrete state with `PPUCTRL.V` set. -/
theorem vblank_start_witness :
    statusV ((clock_2C02 ppuC5w).1.PPUSTATUS) = 1 ∧
    ((clock_2C02 ppuC5w).2 = true ↔ ctrlV ppuC5w.PPUCTRL = 1) :=
  vblank_start_thm ppuC5w rfl rfl

/-- C7 counterexample: a pre-render state (`scanline = -1`, `cycles = 1`) with
background rendering disabled (`PPUMASK.b = 0`) and `PPUSTATUS.V = 1`; one
call to `clock_2C02` leaves `V` set, because the pre-render clear sits inside
the `if (ppu->PPUMASK.flags.b)` guard — contradicting the claim that the
clear happens even with rendering disabled. -/
theorem prerender_clear_cx :
    maskShowBg ppuC7cx.PPUMASK = 0 ∧
    statusV ((clock_2C02 ppuC7cx).1.PPUSTATUS) = 1 := by decide

/-- C7 as amended: at `scanline = -1`, `cycles = 1`, one call to `clock_2C02`
clears `PPUSTATUS.V` when background rendering is enabled, and leaves
`PPUSTATUS` entirely unchanged when it is disabled. -/
theorem prerender_clear_amended (s : State2C02) (h1 : s.scanline = -1) (h2 : s.cycles = 1) :
    (maskShowBg s.PPUMASK = 1 → statusV ((clock_2C02 s).1.PPUSTATUS) = 0) ∧
    (maskShowBg s.PPUMASK ≠ 1 → (clock_2C02 s).1.PPUSTATUS = s.PPUSTATUS) := by
  constructor
  · intro hb
    simp [clock_2C02, renderStep, prerenderLine, visibleLine, fetch_data_inc_v,
          shiftRegistersOnce, feedShiftRegisters, hb, h1, h2, statusV_and127]
  · intro hb
    simp [clock_2C02, renderStep, hb, h1, h2]

/-- C7 witness: with rendering enabled (`PPUMASK = 0x08`) the pre-render dot 1
clears the VBlank flag. -/
theorem prerender_clear_witness :
    statusV ((clock_2C02 ppuC7w).1.PPUSTATUS) = 0 :=
  (prerender_clear_amended ppuC7w rfl rfl).1 (by decide)

theorem write_ppu_status_merge (s : State2C02) (addr d : Nat) :
    (write_ppu s addr d).PPUSTATUS = (s.PPUSTATUS &&& 0xE0) ||| (d &&& 0x1F) := by
  simp only [write_ppu, ppu_bus_write]
  by_cases h0 : addr = 0x2000
  · rw [if_pos h0]
  rw [if_neg h0]
  by_cases h1 : addr = 0x2001
  · rw [if_pos h1]
  rw [if_neg h1]
  by_cases h3 : addr = 0x2003
  · rw [if_pos h3]
  rw [if_neg h3]
  by_cases h4 : addr = 0x2004
  · rw [if_pos h4]
  rw [if_neg h4]
  by_cases h5 : addr = 0x2005
  · rw [if_pos h5]
    by_cases hw : s.w = 0
    · simp only [if_pos hw]
    · simp only [if_neg hw]
      by_cases hw1 : s.w = 1
      · simp only [if_pos hw1]
      · simp only [if_neg hw1]
  rw [if_neg h5]
  by_cases h6 : addr = 0x2006
  · rw [if_pos h6]
    by_cases hw : s.w = 0
    · simp only [if_pos hw]
    · simp only [if_neg hw]
      by_cases hw1 : s.w = 1
      · simp only [if_pos hw1]
      · simp only [if_neg hw1]
  rw [if_neg h6]
  by_cases h7 : addr = 0x2007
  · rw [if_pos h7]
  rw [if_neg h7]

theorem ppuaddr_first_write (s : State2C02) (d : Nat) (hw : s.w = 0) :
    write_ppu s 0x2006 d =
      { s with PPUSTATUS := (s.PPUSTATUS &&& 0xE0) ||| (d &&& 0x1F),
               PPUADDR := d,
               t := (s.t &&& 0x00FF) ||| ((d &&& 0b111111) <<< 8),
               w := 1 } := by
  simp only [write_ppu]
  norm_num [hw]

theorem ppuaddr_second_write (s : State2C02) (d : Nat) (hw : s.w = 1) :
    write_ppu s 0x2006 d =
      { s with PPUSTATUS := (s.PPUSTATUS &&& 0xE0) ||| (d &&& 0x1F),
               PPUADDR := d,
               t := (s.t &&& 0xFF00) ||| d,
               v := (s.t &&& 0xFF00) ||| d,
               w := 0 } := by
  have hw0 : ¬ s.w = 0 := by omega
  simp only [write_ppu]
  norm_num [hw, hw0]

theorem t_hi6_extract (t d : Nat) :
    ((((t &&& 0xFF) ||| ((d &&& 0x3F) <<< 8)) >>> 8) &&& 0x3F) = d &&& 0x3F := by
  apply Nat.eq_of_testBit_eq
  intro i
  have hff : (0xFF : Nat).testBit (8 + i) = false := by
    apply Nat.testBit_lt_two_pow
    calc (0xFF : Nat) < 2 ^ 8 := by norm_num
    _ ≤ 2 ^ (8 + i) := Nat.pow_le_pow_right (by norm_num) (by omega)
  have h8 : 8 + i - 8 = i := by omega
  simp only [Nat.testBit_and, Nat.testBit_shiftRight, Nat.testBit_or, Nat.testBit_shiftLeft,
             hff, h8]
  cases hd : d.testBit i <;> cases h3 : (0x3F : Nat).testBit i <;> simp [hd, h3]

theorem t_bit14_zero (t d : Nat) :
    ((t &&& 0xFF) ||| ((d &&& 0x3F) <<< 8)).testBit 14 = false := by
  have h1 : (0xFF : Nat).testBit 14 = false := by decide
  have h2 : (0x3F : Nat).testBit 6 = false := by decide
  simp only [Nat.testBit_or, Nat.testBit_and, Nat.testBit_shiftLeft, h1]
  norm_num [h2]

theorem t_low8 (t d2 : Nat) (hd2 : d2 < 256) : ((t &&& 0xFF00) ||| d2) &&& 0xFF = d2 := by
  apply Nat.eq_of_testBit_eq
  intro i
  simp only [Nat.testBit_and, Nat.testBit_or]
  by_cases hi : i < 8
  · have hf : (0xFF : Nat).testBit i = true := by
      rw [show (0xFF : Nat) = 2 ^ 8 - 1 by norm_num, Nat.testBit_two_pow_sub_one]
      simpa using hi
    have hf2 : (0xFF00 : Nat).testBit i = false := by
      rw [show (0xFF00 : Nat) = (2 ^ 16 - 1) ^^^ (2 ^ 8 - 1) by decide, Nat.testBit_xor,
          Nat.testBit_two_pow_sub_one, Nat.testBit_two_pow_sub_one]
      have h16 : i < 16 := by omega
      simp [h16, hi]
    simp [hf, hf2]
  · have hf : (0xFF : Nat).testBit i = false := by
      rw [show (0xFF : Nat) = 2 ^ 8 - 1 by norm_num, Nat.testBit_two_pow_sub_one]
      simpa using hi
    have hd : d2.testBit i = false := by
      apply Nat.testBit_lt_two_pow
      calc d2 < 256 := hd2
      _ = 2 ^ 8 := by norm_num
      _ ≤ 2 ^ i := Nat.pow_le_pow_right (by norm_num) (by omega)
    simp [hf, hd]

theorem and_or_mask_low5 (x d : Nat) :
    ((x &&& 0xE0) ||| (d &&& 0x1F)) &&& 0x1F = d &&& 0x1F := by
  apply Nat.eq_of_testBit_eq
  intro i
  have hef : ((0xE0 : Nat).testBit i && (0x1F : Nat).testBit i) = false := by
    rw [← Nat.testBit_and]
    have h0 : (0xE0 &&& 0x1F : Nat) = 0 := by decide
    rw [h0]
    simp
  simp only [Nat.testBit_and, Nat.testBit_or]
  cases hx : x.testBit i <;> cases hd : d.testBit i <;>
    cases he : (0xE0 : Nat).testBit i <;> cases hf : (0x1F : Nat).testBit i <;> simp_all

/-- C6: with `w = 0`, writing `d` to `0x2006` puts `d & 0x3F` into bits 8-13
of `t`, zeroes bit 14 of `t`, and toggles `w` to 1; a second write of `d2`
puts `d2` into the low 8 bits of `t` and copies `t` into `v`; and a read of
`0x2002` clears `w`. -/
theorem ppuaddr_write_protocol (s : State2C02) (d d2 : Nat) (hw : s.w = 0)
    (hd : d < 256) (hd2 : d2 < 256) :
    (((write_ppu s 0x2006 d).t >>> 8) &&& 0x3F = d &&& 0x3F) ∧
    ((write_ppu s 0x2006 d).t.testBit 14 = false) ∧
    ((write_ppu s 0x2006 d).w = 1) ∧
    ((write_ppu (write_ppu s 0x2006 d) 0x2006 d2).t &&& 0xFF = d2) ∧
    ((write_ppu (write_ppu s 0x2006 d) 0x2006 d2).v = (write_ppu (write_ppu s 0x2006 d) 0x2006 d2).t) ∧
    ((read_ppu s 0x2002).1.w = 0) := by
  rw [ppuaddr_first_write s d hw]
  rw [ppuaddr_second_write _ d2 rfl]
  refine ⟨t_hi6_extract s.t d, t_bit14_zero s.t d, rfl, t_low8 _ d2 hd2, rfl, ?_⟩
  simp [read_ppu]

/-- C6 witness: the protocol on a concrete state, writing `0x3F` then `0x21`. -/
theorem ppuaddr_write_witness :
    (((write_ppu basePPU 0x2006 0x3F).t >>> 8) &&& 0x3F = 0x3F &&& 0x3F) ∧
    ((write_ppu basePPU 0x2006 0x3F).t.testBit 14 = false) ∧
    ((write_ppu basePPU 0x2006 0x3F).w = 1) ∧
    ((write_ppu (write_ppu basePPU 0x2006 0x3F) 0x2006 0x21).t &&& 0xFF = 0x21) ∧
    ((write_ppu (write_ppu basePPU 0x2006 0x3F) 0x2006 0x21).v =
      (write_ppu (write_ppu basePPU 0x2006 0x3F) 0x2006 0x21).t) ∧
    ((read_ppu basePPU 0x2002).1.w = 0) :=
  ppuaddr_write_protocol basePPU 0x3F 0x21 rfl (by decide) (by decide)

/-- C8 counterexample: with `v = 0x4000` and `PPUCTRL.I = 0`, a read of
`0x2007` leaves `v` unchanged — the claimed unconditional `+ 1` does not
happen because the source only increments inside its two `v`-range
branches. -/
theorem ppudata_inc_cx :
    ctrlI ppuC8cx.PPUCTRL = 0 ∧
    (read_ppu ppuC8cx 0x2007).1.v = ppuC8cx.v ∧
    (read_ppu ppuC8cx 0x2007).1.v ≠ ppuC8cx.v + 1 := by decide

/-- C8 as amended: a read of `0x2007` increments `v` by 32 when `PPUCTRL.I`
is set and by 1 otherwise whenever `v < 0x4000` (covering both the buffered
branch `v < 0x3F00` and the palette branch); for `v ≥ 0x4000` the read leaves
`v` unchanged and returns 0. -/
theorem ppudata_read_inc_amended (s : State2C02) (hv : s.v < 65536) :
    (s.v < 0x4000 →
      (read_ppu s 0x2007).1.v = s.v + (if ctrlI s.PPUCTRL = 1 then 32 else 1)) ∧
    (0x4000 ≤ s.v →
      (read_ppu s 0x2007).1.v = s.v ∧ (read_ppu s 0x2007).2 = 0) := by
  constructor
  · intro h4
    have hb : s.v + (if ctrlI s.PPUCTRL = 1 then 32 else 1) < 65536 := by
      split <;> omega
    by_cases h3 : s.v < 0x3F00
    · simp [read_ppu, h3, Nat.mod_eq_of_lt hb]
    · simp [read_ppu, h3, h4, Nat.mod_eq_of_lt hb]
  · intro h4
    have h3 : ¬ s.v < 0x3F00 := by omega
    have h3b : ¬ s.v < 0x4000 := by omega
    simp [read_ppu, h3, h3b]

/-- C8 witness: the increment at `v = 0x2301` with `PPUCTRL.I = 0`. -/
theorem ppudata_inc_witness :
    (read_ppu ppuC8w 0x2007).1.v = ppuC8w.v + (if ctrlI ppuC8w.PPUCTRL = 1 then 32 else 1) :=
  (ppudata_read_inc_amended ppuC8w (by decide)).1 (by decide)

/-- C9 counterexample: the claim (and the spec's test vector) says
`coarseXinc 0x041F = 0x0400`; the function actually returns `0x0000`, because
bit 10 of `0x041F` is already set and the increment toggles it off. -/
theorem coarsex_spec_vector_cx : coarseXinc 0x041F ≠ 0x0400 := by decide

/-- C9 as amended: `coarseXinc 0x041F = 0x0000`, with the low five bits
cleared and bit 10 of the output the complement of bit 10 of the input. -/
theorem coarsex_amended :
    coarseXinc 0x041F = 0x0000 ∧
    (coarseXinc 0x041F).testBit 10 = !((0x041F : Nat).testBit 10) := by decide

/-- C10: for every accepted register address (`0x2000`-`0x2007` and `0x4014`)
and every data byte, `write_ppu` merges the low 5 bits of the data into bits
0-4 of `PPUSTATUS` and leaves bits 5-7 unchanged; no register case writes
`PPUSTATUS` afterwards, so this is the final value. -/
theorem ppustatus_low5_thm (s : State2C02) (addr d : Nat)
    (h : (0x2000 ≤ addr ∧ addr ≤ 0x2007) ∨ addr = 0x4014) :
    ((write_ppu s addr d).PPUSTATUS = (s.PPUSTATUS &&& 0xE0) ||| (d &&& 0x1F)) ∧
    ((write_ppu s addr d).PPUSTATUS.testBit 5 = s.PPUSTATUS.testBit 5) ∧
    ((write_ppu s addr d).PPUSTATUS.testBit 6 = s.PPUSTATUS.testBit 6) ∧
    ((write_ppu s addr d).PPUSTATUS.testBit 7 = s.PPUSTATUS.testBit 7) ∧
    ((write_ppu s addr d).PPUSTATUS &&& 0x1F = d &&& 0x1F) := by
  have hm := write_ppu_status_merge s addr d
  rw [hm]
  have e5 : (0xE0 : Nat).testBit 5 = true := by decide
  have e6 : (0xE0 : Nat).testBit 6 = true := by decide
  have e7 : (0xE0 : Nat).testBit 7 = true := by decide
  have f5 : (0x1F : Nat).testBit 5 = false := by decide
  have f6 : (0x1F : Nat).testBit 6 = false := by decide
  have f7 : (0x1F : Nat).testBit 7 = false := by decide
  refine ⟨rfl, ?_, ?_, ?_, and_or_mask_low5 s.PPUSTATUS d⟩ <;>
    simp [Nat.testBit_or, Nat.testBit_and, e5, e6, e7, f5, f6, f7]

/-- C10 witness: the status merge at the otherwise unhandled register
`0x2003` on a state with `PPUSTATUS = 0xA5`. -/
theorem ppustatus_low5_witness :
    ((write_ppu ppuC10w 0x2003 0x77).PPUSTATUS = (ppuC10w.PPUSTATUS &&& 0xE0) ||| (0x77 &&& 0x1F)) ∧
    ((write_ppu ppuC10w 0x2003 0x77).PPUSTATUS.testBit 5 = ppuC10w.PPUSTATUS.testBit 5) ∧
    ((write_ppu ppuC10w 0x2003 0x77).PPUSTATUS.testBit 6 = ppuC10w.PPUSTATUS.testBit 6) ∧
    ((write_ppu ppuC10w 0x2003 0x77).PPUSTATUS.testBit 7 = ppuC10w.PPUSTATUS.testBit 7) ∧
    ((write_ppu ppuC10w 0x2003 0x77).PPUSTATUS &&& 0x1F = 0x77 &&& 0x1F) :=
  ppustatus_low5_thm ppuC10w 0x2003 0x77 (Or.inl (by decide))
